import Mathlib

/-!
Verification of the canonical-snapshot / content-hash / change-detection /
amendment subsystem of the transport booking application
(`transport/letters/snapshots.py`, `transport/letters/storage.py`,
`transport/routes/admin/letters.py`).

The Python code is shallowly embedded: SQLAlchemy rows become Lean
structures, the mutable letter table becomes an explicit `Store` value that
the issuance operation threads, `json.dumps(..., sort_keys=True,
separators=(",", ":"), ensure_ascii=False)` and `hashlib.sha256` are
implemented over `Nat`/`String`, and every function keeps the shape of its
Python source.
-/

/-! ## Python string primitives

`str.upper()` restricted to ASCII (all role / mode strings in this system
are ASCII) and `str.strip()` for ASCII whitespace. -/

/-- ASCII uppercase, the effect of Python `str.upper()` on ASCII text. -/
def pyUpper (s : String) : String :=
  ⟨s.data.map Char.toUpper⟩

/-- Whitespace test used by Python `str.strip()` (ASCII whitespace). -/
def pySpace (c : Char) : Bool :=
  c = ' ' || c = '\t' || c = '\n' || c = '\x0d' || c = '\x0b' || c = '\x0c'

/-- Python `str.strip()`: drop leading and trailing whitespace. -/
def pyStrip (s : String) : String :=
  ⟨(((s.data.dropWhile pySpace).reverse).dropWhile pySpace).reverse⟩

/-! ## SHA-256 over lists of bytes (`hashlib.sha256(...).hexdigest()`) -/

/-- 2^32, the word modulus of SHA-256. -/
def w32 : Nat := 4294967296

/-- Right rotation of a 32-bit word. -/
def rotr (n x : Nat) : Nat :=
  ((x >>> n) ||| (x <<< (32 - n))) % w32

/-- SHA-256 round constants (FIPS 180-4, written in decimal). -/
def shaK : List Nat :=
  [1116352408, 1899447441, 3049323471, 3921009573, 961987163,
   1508970993, 2453635748, 2870763221, 3624381080, 310598401,
   607225278, 1426881987, 1925078388, 2162078206, 2614888103,
   3248222580, 3835390401, 4022224774, 264347078, 604807628,
   770255983, 1249150122, 1555081692, 1996064986, 2554220882,
   2821834349, 2952996808, 3210313671, 3336571891, 3584528711,
   113926993, 338241895, 666307205, 773529912, 1294757372,
   1396182291, 1695183700, 1986661051, 2177026350, 2456956037,
   2730485921, 2820302411, 3259730800, 3345764771, 3516065817,
   3600352804, 4094571909, 275423344, 430227734, 506948616,
   659060556, 883997877, 958139571, 1322822218, 1537002063,
   1747873779, 1955562222, 2024104815, 2227730452, 2361852424,
   2428436474, 2756734187, 3204031479, 3329325298]

/-- Working state of the SHA-256 compression function. -/
structure ShaState where
  a : Nat
  b : Nat
  c : Nat
  d : Nat
  e : Nat
  f : Nat
  g : Nat
  h : Nat

/-- Initial SHA-256 hash value (FIPS 180-4, written in decimal). -/
def shaInit : ShaState :=
  ⟨1779033703, 3144134277, 1013904242, 2773480762,
   1359893119, 2600822924, 528734635, 1541459225⟩

/-- One round of the SHA-256 compression function. -/
def shaRound (st : ShaState) (kw : Nat) : ShaState :=
  let s1 := (rotr 6 st.e) ^^^ (rotr 11 st.e) ^^^ (rotr 25 st.e)
  let ch := (st.e &&& st.f) ^^^ ((st.e ^^^ (w32 - 1)) &&& st.g)
  let t1 := (st.h + s1 + ch + kw) % w32
  let s0 := (rotr 2 st.a) ^^^ (rotr 13 st.a) ^^^ (rotr 22 st.a)
  let mj := (st.a &&& st.b) ^^^ (st.a &&& st.c) ^^^ (st.b &&& st.c)
  let t2 := (s0 + mj) % w32
  ⟨(t1 + t2) % w32, st.a, st.b, st.c, (st.d + t1) % w32, st.e, st.f, st.g⟩

/-- Extend the message words to the 64-word schedule; the accumulator holds
the words produced so far in reverse order. -/
def shaScheduleAux : Nat → List Nat → List Nat
  | 0, rws => rws.reverse
  | fuel + 1, rws =>
    let x2 := rws.getD 1 0
    let x7 := rws.getD 6 0
    let x15 := rws.getD 14 0
    let x16 := rws.getD 15 0
    let s0 := (rotr 7 x15) ^^^ (rotr 18 x15) ^^^ (x15 >>> 3)
    let s1 := (rotr 17 x2) ^^^ (rotr 19 x2) ^^^ (x2 >>> 10)
    shaScheduleAux fuel (((x16 + s0 + x7 + s1) % w32) :: rws)

/-- Extend 16 message words to the 64-word schedule. -/
def shaSchedule (ws : List Nat) (fuel : Nat) : List Nat :=
  shaScheduleAux fuel ws.reverse

/-- Convert a 64-byte block to its 16 big-endian 32-bit words. -/
def blockWords : List Nat → List Nat
  | b0 :: b1 :: b2 :: b3 :: rest =>
    (((b0 <<< 24) ||| (b1 <<< 16) ||| (b2 <<< 8) ||| b3) % w32) :: blockWords rest
  | _ => []

/-- Process one 64-byte block. -/
def shaBlock (st : ShaState) (block : List Nat) : ShaState :=
  let ws := shaSchedule (blockWords block) 48
  let r := (shaK.zip ws).foldl (fun s kw => shaRound s (kw.1 + kw.2)) st
  ⟨(st.a + r.a) % w32, (st.b + r.b) % w32, (st.c + r.c) % w32, (st.d + r.d) % w32,
   (st.e + r.e) % w32, (st.f + r.f) % w32, (st.g + r.g) % w32, (st.h + r.h) % w32⟩

/-- Split a byte list into 64-byte blocks (fuel-structured recursion so the
kernel can evaluate it; the fuel is the list length). -/
def toBlocksAux : Nat → List Nat → List (List Nat)
  | _, [] => []
  | 0, _ => []
  | fuel + 1, bs => bs.take 64 :: toBlocksAux fuel (bs.drop 64)

/-- Split a byte list into 64-byte blocks. -/
def toBlocks (bs : List Nat) : List (List Nat) :=
  toBlocksAux bs.length bs

/-- 8-byte big-endian encoding of a length-in-bits value. -/
def be64 (n : Nat) : List Nat :=
  [(n >>> 56) % 256, (n >>> 48) % 256, (n >>> 40) % 256, (n >>> 32) % 256,
   (n >>> 24) % 256, (n >>> 16) % 256, (n >>> 8) % 256, n % 256]

/-- SHA-256 padding of a message. -/
def shaPad (msg : List Nat) : List Nat :=
  let l := msg.length
  msg ++ [0x80] ++ List.replicate ((119 - l % 64) % 64) 0 ++ be64 (8 * l)

/-- Lowercase hex digit. -/
def hexDigit (n : Nat) : Char :=
  if n < 10 then Char.ofNat (48 + n) else Char.ofNat (87 + n)

/-- 8-hex-digit rendering of a 32-bit word. -/
def hexWord (x : Nat) : List Char :=
  [hexDigit ((x >>> 28) % 16), hexDigit ((x >>> 24) % 16),
   hexDigit ((x >>> 20) % 16), hexDigit ((x >>> 16) % 16),
   hexDigit ((x >>> 12) % 16), hexDigit ((x >>> 8) % 16),
   hexDigit ((x >>> 4) % 16), hexDigit (x % 16)]

/-- SHA-256 of a byte list, as the lowercase hex digest. -/
def sha256Hex (msg : List Nat) : String :=
  let st := (toBlocks (shaPad msg)).foldl shaBlock shaInit
  ⟨hexWord st.a ++ hexWord st.b ++ hexWord st.c ++ hexWord st.d ++
   hexWord st.e ++ hexWord st.f ++ hexWord st.g ++ hexWord st.h⟩

/-- UTF-8 bytes of one character. -/
def utf8Char (c : Char) : List Nat :=
  let n := c.toNat
  if n < 0x80 then [n]
  else if n < 0x800 then [0xc0 + (n >>> 6), 0x80 + n % 64]
  else if n < 0x10000 then [0xe0 + (n >>> 12), 0x80 + (n >>> 6) % 64, 0x80 + n % 64]
  else [0xf0 + (n >>> 18), 0x80 + (n >>> 12) % 64, 0x80 + (n >>> 6) % 64, 0x80 + n % 64]

/-- UTF-8 encoding of a string, as the byte list `s.encode("utf-8")`. -/
def utf8Bytes (s : String) : List Nat :=
  s.data.flatMap utf8Char

/-! ## Python values and JSON serialization

`db.Float` columns (`total_quantity`, `total_amount`, `quantity`, `rate`,
`amount`) are modelled as whole-valued Python floats: `PyFloat.val = n`
stands for the float `n.0`, whose Python `repr` — the form `json.dumps`
and `str()` emit — is the decimal digits followed by `.0`.  All concrete
scenarios in the specification use whole-valued quantities, and equality
of whole-valued floats coincides with equality of their `val`s. -/

/-- A whole-valued Python float (see the section comment). -/
structure PyFloat where
  val : Int
deriving DecidableEq, Repr

/-- Python `repr` of a whole-valued float, e.g. `50.0`. -/
def pyFloatStr (f : PyFloat) : String :=
  toString f.val ++ ".0"

/-- A JSON value as produced by the canonical snapshot builders: the
payload dictionaries hold `None`, booleans, ints, (whole-valued) floats,
strings, lists and string-keyed dicts. -/
inductive Json where
  | null
  | bool (b : Bool)
  | int (n : Int)
  | float (f : PyFloat)
  | str (s : String)
  | arr (elems : List Json)
  | obj (fields : List (String × Json))
deriving Inhabited

/-- Code-point lexicographic comparison of character lists, the order
Python uses to compare strings (`sort_keys=True` sorts by it). -/
def charListLe : List Char → List Char → Bool
  | [], _ => true
  | _ :: _, [] => false
  | c :: cs, d :: ds =>
    if c.toNat < d.toNat then true
    else if d.toNat < c.toNat then false
    else charListLe cs ds

/-- Python string `<=`. -/
def strLe (s t : String) : Bool :=
  charListLe s.data t.data

/-- Stable insertion into a list sorted by `le` (helper of `pySortBy`). -/
def pyInsertBy (le : α → α → Bool) (a : α) : List α → List α
  | [] => [a]
  | b :: l => if le a b then a :: b :: l else b :: pyInsertBy le a l

/-- Stable sort with respect to a boolean `le`, the semantics of Python's
stable `sorted(..., key=...)` (a stable sort's output is unique, so
insertion sort is a faithful model of Python's mergesort). -/
def pySortBy (le : α → α → Bool) : List α → List α
  | [] => []
  | a :: l => pyInsertBy le a (pySortBy le l)

/-- JSON escaping of one character, as `json.dumps` with
`ensure_ascii=False` emits it: only the quote, the backslash and control
characters are escaped. -/
def jsonEscapeChar (c : Char) : List Char :=
  if c = '"' then ['\\', '"']
  else if c = '\\' then ['\\', '\\']
  else if c.toNat ≥ 32 then [c]
  else if c = '\n' then ['\\', 'n']
  else if c = '\t' then ['\\', 't']
  else if c = '\x0d' then ['\\', 'r']
  else if c = '\x08' then ['\\', 'b']
  else if c = '\x0c' then ['\\', 'f']
  else ['\\', 'u', '0', '0', hexDigit (c.toNat >>> 4), hexDigit (c.toNat % 16)]

/-- A JSON string literal. -/
def dumpStr (s : String) : String :=
  ⟨'"' :: s.data.flatMap jsonEscapeChar ++ ['"']⟩

/-- Comma-join, the `","` item separator of
`json.dumps(..., separators=(",", ":"))`. -/
def joinComma : List String → String
  | [] => ""
  | [s] => s
  | s :: rest => s ++ "," ++ joinComma rest

/-- `json.dumps(j, sort_keys=True, ensure_ascii=False,
separators=(",", ":"))`: keys sorted lexicographically at every nesting
level, no insignificant whitespace.  The recursion is structured on a
depth fuel so that the kernel can evaluate it; every payload this system
builds has nesting depth at most 6, far below the fuel `dumpJson` passes. -/
def dumpJsonFuel : Nat → Json → String
  | 0, _ => ""
  | fuel + 1, j =>
    match j with
    | .null => "null"
    | .bool b => if b then "true" else "false"
    | .int n => toString n
    | .float f => pyFloatStr f
    | .str s => dumpStr s
    | .arr elems => "[" ++ joinComma (elems.map (dumpJsonFuel fuel)) ++ "]"
    | .obj fields =>
      let sorted := pySortBy (fun a b => strLe a.1 b.1) fields
      "\x7b" ++
        joinComma (sorted.map (fun kv => dumpStr kv.1 ++ ":" ++ dumpJsonFuel fuel kv.2)) ++
        "\x7d"

/-- Canonical JSON serialization (see `dumpJsonFuel`). -/
def dumpJson (j : Json) : String :=
  dumpJsonFuel 100 j

/-- `hashlib.sha256(s.encode("utf-8")).hexdigest()` of the canonical
serialization — the digest of `stable_json_hash` / the hashers below. -/
def sha256OfJson (j : Json) : String :=
  sha256Hex (utf8Bytes (dumpJson j))

example : sha256Hex (utf8Bytes "abc") =
    "ba7816bf8f01cfea414140de5dae2223b00361a396177a9cb410ff61f20015ad" := by decide

/-! ## Data model (`transport/models.py`)

Each SQLAlchemy row class becomes a structure holding exactly the columns
and relationships the letters subsystem reads.  Nullable columns and
nullable relationships are `Option`s; `db.Date` is a calendar date. -/

/-- A calendar date (`datetime.date`). -/
structure Date where
  year : Nat
  month : Nat
  day : Nat
deriving DecidableEq, Repr

/-- Zero-padded decimal rendering. -/
def padNum (width n : Nat) : String :=
  let s := toString n
  ⟨List.replicate (width - s.length) '0'⟩ ++ s

/-- Python `date.isoformat()`: `YYYY-MM-DD`. -/
def Date.isoformat (d : Date) : String :=
  padNum 4 d.year ++ "-" ++ padNum 2 d.month ++ "-" ++ padNum 2 d.day

/-- `Location`: only `code` is read by this subsystem. -/
structure Location where
  code : Option String
deriving DecidableEq, Repr

/-- `Authority`: title and location. -/
structure Authority where
  authority_title : Option String
  location : Option Location
deriving DecidableEq, Repr

/-- `BookingAuthority`: a booking's loading/unloading party. -/
structure BookingAuthority where
  authority_id : Option Int
  role : Option String
  sequence_index : Option Int
  authority : Option Authority
deriving DecidableEq, Repr

/-- `BookingMaterialLine`. -/
structure BookingMaterialLine where
  sequence_index : Option Int
  description : Option String
  unit : Option String
  quantity : Option PyFloat
  rate : Option PyFloat
  amount : Option PyFloat
deriving DecidableEq, Repr

/-- `BookingMaterial`: one material table of a booking. -/
structure BookingMaterial where
  id : Option Int
  sequence_index : Option Int
  booking_authority_id : Option Int
  mode : Option String
  total_quantity : Option PyFloat
  total_quantity_unit : Option String
  total_amount : Option PyFloat
  lines : List BookingMaterialLine
deriving DecidableEq, Repr

/-- `Agreement`: the two fields the canonical payload reads. -/
structure Agreement where
  loa_number : Option String
  placement_ref_prefix : Option String
deriving DecidableEq, Repr

/-- `Company`. -/
structure Company where
  name : Option String
deriving DecidableEq, Repr

/-- `Route`: only `total_km` is read. -/
structure RouteRec where
  total_km : Int
deriving DecidableEq, Repr

/-- `LorryDetails`: capacity and carrier size. -/
structure Lorry where
  capacity : Int
  carrier_size : String
deriving DecidableEq, Repr

/-- `Booking` with the relationships the letters subsystem reads. -/
structure Booking where
  id : Int
  agreement_id : Int
  status : String
  placement_date : Option Date
  route_id : Int
  agreement : Option Agreement
  company : Option Company
  route : Option RouteRec
  lorry : Option Lorry
  booking_authorities : List BookingAuthority
  material_tables : List BookingMaterial
deriving DecidableEq, Repr

/-- `Booking.is_cancelled`: `status == "CANCELLED"`. -/
def Booking.is_cancelled (b : Booking) : Bool :=
  b.status == "CANCELLED"

/-- The booking table, as seen by `Booking.query` (the letters subsystem
only filters it by `agreement_id` and looks bookings up by id). -/
structure Db where
  bookings : List Booking
deriving DecidableEq, Repr

/-! ### Python truthiness helpers (`x or default`) -/

/-- `x or 0` on an optional int (`None` and `0` are falsy). -/
def orInt (o : Option Int) : Int :=
  o.getD 0

/-- `x or ""` on an optional string (`None` and `""` are falsy). -/
def orStr (o : Option String) : String :=
  o.getD ""

/-- `x or "-"` on an optional string. -/
def orDash (o : Option String) : String :=
  match o with
  | none => "-"
  | some s => if s = "" then "-" else s

/-! ## Trip serial (`compute_trip_serial`, identical in
`transport/letters/snapshots.py` and `transport/routes/admin/letters.py`) -/

/-- The `for idx, b in enumerate(siblings, start=1)` loop of
`compute_trip_serial`. -/
def tripSerialLoop (bid : Int) (idx : Int) : List Booking → Int
  | [] => 1
  | s :: rest => if s.id = bid then idx else tripSerialLoop bid (idx + 1) rest

/-- Stable Trip Serial within an agreement: the booking's position in the
`Booking.id`-ascending list of bookings sharing its `agreement_id`,
defaulting to 1 if the booking is not found. -/
def compute_trip_serial (db : Db) (booking : Booking) : Int :=
  let siblings :=
    pySortBy (fun a b => decide (a.id ≤ b.id))
      (db.bookings.filter (fun s => s.agreement_id == booking.agreement_id))
  tripSerialLoop booking.id 1 siblings

/-! ## Canonical snapshot (typed payload plus its JSON form)

The Python builders construct nested dicts; the structures below give
those dicts' exact shape (one field per dict key), and `canonFields`
lists them in the source's insertion order.  Hashing serializes the JSON
form with sorted keys, so the insertion order is immaterial to digests. -/

/-- One entry of the `loading` / `unloading` lists of the canonical
payload (`_canon_authority`'s dict). -/
structure CanonAuthority where
  authority_id : Option Int
  role : Option String
  sequence_index : Option Int
  title : String
  location_code : String
deriving DecidableEq, Repr

/-- One entry of a canonical material table's `lines` list. -/
structure CanonLine where
  sequence_index : Int
  description : String
  unit : String
  quantity : Option PyFloat
  rate : Option PyFloat
  amount : Option PyFloat
deriving DecidableEq, Repr

/-- One entry of the canonical payload's `materials` list
(`_canon_material_table`'s dict). -/
structure CanonMaterial where
  id : Option Int
  sequence_index : Int
  booking_authority_id : Option Int
  mode : String
  total_quantity : Option PyFloat
  total_quantity_unit : String
  total_amount : Option PyFloat
  lines : List CanonLine
deriving DecidableEq, Repr

/-- The canonical payload dict built by
`build_canonical_snapshot_for_placement`. -/
structure CanonSnapshot where
  booking_id : Int
  agreement_id : Int
  trip_serial : Int
  letter_date : String
  placement_date : Option String
  loa_number : Option String
  placement_ref_prefix : Option String
  company_name : Option String
  route_id : Int
  route_total_km : Option Int
  lorry_capacity : Option Int
  lorry_carrier_size : Option String
  loading : List CanonAuthority
  unloading : List CanonAuthority
  materials : List CanonMaterial
  requires_attachment : Bool
deriving DecidableEq, Repr

/-- JSON of an optional int (`None` → `null`). -/
def jsonOptInt : Option Int → Json
  | none => .null
  | some n => .int n

/-- JSON of an optional string. -/
def jsonOptStr : Option String → Json
  | none => .null
  | some s => .str s

/-- JSON of an optional float. -/
def jsonOptFloat : Option PyFloat → Json
  | none => .null
  | some f => .float f

/-- JSON of a canonical authority entry (keys in source insertion order). -/
def CanonAuthority.toJson (a : CanonAuthority) : Json :=
  .obj [("authority_id", jsonOptInt a.authority_id),
        ("role", jsonOptStr a.role),
        ("sequence_index", jsonOptInt a.sequence_index),
        ("title", .str a.title),
        ("location_code", .str a.location_code)]

/-- JSON of a canonical material line. -/
def CanonLine.toJson (ln : CanonLine) : Json :=
  .obj [("sequence_index", .int ln.sequence_index),
        ("description", .str ln.description),
        ("unit", .str ln.unit),
        ("quantity", jsonOptFloat ln.quantity),
        ("rate", jsonOptFloat ln.rate),
        ("amount", jsonOptFloat ln.amount)]

/-- JSON of a canonical material table. -/
def CanonMaterial.toJson (mt : CanonMaterial) : Json :=
  .obj [("id", jsonOptInt mt.id),
        ("sequence_index", .int mt.sequence_index),
        ("booking_authority_id", jsonOptInt mt.booking_authority_id),
        ("mode", .str mt.mode),
        ("total_quantity", jsonOptFloat mt.total_quantity),
        ("total_quantity_unit", .str mt.total_quantity_unit),
        ("total_amount", jsonOptFloat mt.total_amount),
        ("lines", .arr (mt.lines.map CanonLine.toJson))]

/-- The canonical payload's key/value list, in the source's insertion
order. -/
def canonFields (c : CanonSnapshot) : List (String × Json) :=
  [("booking_id", .int c.booking_id),
   ("agreement_id", .int c.agreement_id),
   ("trip_serial", .int c.trip_serial),
   ("letter_date", .str c.letter_date),
   ("placement_date", jsonOptStr c.placement_date),
   ("loa_number", jsonOptStr c.loa_number),
   ("placement_ref_prefix", jsonOptStr c.placement_ref_prefix),
   ("company_name", jsonOptStr c.company_name),
   ("route_id", .int c.route_id),
   ("route_total_km", jsonOptInt c.route_total_km),
   ("lorry_capacity", jsonOptInt c.lorry_capacity),
   ("lorry_carrier_size", jsonOptStr c.lorry_carrier_size),
   ("loading", .arr (c.loading.map CanonAuthority.toJson)),
   ("unloading", .arr (c.unloading.map CanonAuthority.toJson)),
   ("materials", .arr (c.materials.map CanonMaterial.toJson)),
   ("requires_attachment", .bool c.requires_attachment)]

/-- `hash_canonical_snapshot` of `transport/letters/snapshots.py`, and
likewise `_hash_canonical_snapshot` of
`transport/routes/admin/letters.py` (their bodies are identical): pop
`letter_date` from a copy of the payload, serialize canonically, SHA-256. -/
def hash_canonical_snapshot (c : CanonSnapshot) : String :=
  sha256Hex (utf8Bytes (dumpJson
    (.obj ((canonFields c).filter (fun kv => kv.1 != "letter_date")))))

/-! ## Canonical material table (`_canon_material_table`, identical in
`transport/letters/snapshots.py` and `transport/routes/admin/letters.py`) -/

/-- `_canon_material_table`: sort the lines by sequence index, normalize
mode (upper, strip, default `"ITEM"`), strip the textual fields. -/
def _canon_material_table (mt : BookingMaterial) : CanonMaterial :=
  let lines := pySortBy
    (fun a b => decide (orInt a.sequence_index ≤ orInt b.sequence_index)) mt.lines
  { id := mt.id
    sequence_index := orInt mt.sequence_index
    booking_authority_id := mt.booking_authority_id
    mode := let m := pyStrip (pyUpper (orStr mt.mode)); if m = "" then "ITEM" else m
    total_quantity := mt.total_quantity
    total_quantity_unit := pyStrip (orStr mt.total_quantity_unit)
    total_amount := mt.total_amount
    lines := lines.map (fun ln =>
      { sequence_index := orInt ln.sequence_index
        description := pyStrip (orStr ln.description)
        unit := pyStrip (orStr ln.unit)
        quantity := ln.quantity
        rate := ln.rate
        amount := ln.amount }) }

/-- Lexicographic `<=` on the Python sort key `((seq or 0), (id or 0))`
used for material tables. -/
def pairLe (p q : Int × Int) : Bool :=
  decide (p.1 < q.1 ∨ (p.1 = q.1 ∧ p.2 ≤ q.2))

namespace SnapshotsPy

/-! ### `transport/letters/snapshots.py` -/

/-- `_canon_authority` (snapshots module): note the role is normalized
with `.upper().strip()`. -/
def _canon_authority (ba : BookingAuthority) : CanonAuthority :=
  match ba.authority with
  | none =>
    { authority_id := none, role := none, sequence_index := none,
      title := "-", location_code := "" }
  | some auth =>
    { authority_id := ba.authority_id
      role := some (pyStrip (pyUpper (orStr ba.role)))
      sequence_index := some (orInt ba.sequence_index)
      title := orDash auth.authority_title
      location_code :=
        match auth.location with
        | some loc => pyStrip (orStr loc.code)
        | none => "" }

/-- `booking_requires_attachment_pdf` (snapshots module): any material
table whose mode is `ATTACHED` after `.upper().strip()`. -/
def booking_requires_attachment_pdf (booking : Booking) : Bool :=
  booking.material_tables.any
    (fun mt => pyStrip (pyUpper (orStr mt.mode)) == "ATTACHED")

/-- `build_canonical_snapshot_for_placement` (snapshots module): the
role filters use `.upper().strip()`. -/
def build_canonical_snapshot_for_placement
    (db : Db) (booking : Booking) (letter_date_val : Date) : CanonSnapshot :=
  let loading := pySortBy
    (fun a b => decide (orInt a.sequence_index ≤ orInt b.sequence_index))
    (booking.booking_authorities.filter
      (fun ba => pyStrip (pyUpper (orStr ba.role)) == "LOADING"))
  let unloading := pySortBy
    (fun a b => decide (orInt a.sequence_index ≤ orInt b.sequence_index))
    (booking.booking_authorities.filter
      (fun ba => pyStrip (pyUpper (orStr ba.role)) == "UNLOADING"))
  let mts := pySortBy
    (fun a b => pairLe (orInt a.sequence_index, orInt a.id) (orInt b.sequence_index, orInt b.id))
    booking.material_tables
  { booking_id := booking.id
    agreement_id := booking.agreement_id
    trip_serial := compute_trip_serial db booking
    letter_date := letter_date_val.isoformat
    placement_date := booking.placement_date.map Date.isoformat
    loa_number := booking.agreement.bind (fun ag => ag.loa_number)
    placement_ref_prefix := booking.agreement.bind (fun ag => ag.placement_ref_prefix)
    company_name := booking.company.bind (fun co => co.name)
    route_id := booking.route_id
    route_total_km := booking.route.map (fun r => r.total_km)
    lorry_capacity := booking.lorry.map (fun l => l.capacity)
    lorry_carrier_size := booking.lorry.map (fun l => l.carrier_size)
    loading := loading.map _canon_authority
    unloading := unloading.map _canon_authority
    materials := mts.map _canon_material_table
    requires_attachment := booking_requires_attachment_pdf booking }

end SnapshotsPy

namespace LettersPy

/-! ### `transport/routes/admin/letters.py` -/

/-- `_canon_authority` (letters route module): the role is normalized
with `.upper()` only — no `.strip()`, unlike the snapshots module. -/
def _canon_authority (ba : BookingAuthority) : CanonAuthority :=
  match ba.authority with
  | none =>
    { authority_id := none, role := none, sequence_index := none,
      title := "-", location_code := "" }
  | some auth =>
    { authority_id := ba.authority_id
      role := some (pyUpper (orStr ba.role))
      sequence_index := some (orInt ba.sequence_index)
      title := orDash auth.authority_title
      location_code :=
        match auth.location with
        | some loc => pyStrip (orStr loc.code)
        | none => "" }

/-- `booking_requires_attachment_pdf` (letters route module): mode is
compared with `.upper()` only — no `.strip()`. -/
def booking_requires_attachment_pdf (booking : Booking) : Bool :=
  booking.material_tables.any
    (fun mt => pyUpper (orStr mt.mode) == "ATTACHED")

/-- `build_canonical_snapshot_for_placement` (letters route module): the
role filters use `.upper()` only — no `.strip()`. -/
def build_canonical_snapshot_for_placement
    (db : Db) (booking : Booking) (letter_date_val : Date) : CanonSnapshot :=
  let loading := pySortBy
    (fun a b => decide (orInt a.sequence_index ≤ orInt b.sequence_index))
    (booking.booking_authorities.filter
      (fun ba => pyUpper (orStr ba.role) == "LOADING"))
  let unloading := pySortBy
    (fun a b => decide (orInt a.sequence_index ≤ orInt b.sequence_index))
    (booking.booking_authorities.filter
      (fun ba => pyUpper (orStr ba.role) == "UNLOADING"))
  let mts := pySortBy
    (fun a b => pairLe (orInt a.sequence_index, orInt a.id) (orInt b.sequence_index, orInt b.id))
    booking.material_tables
  { booking_id := booking.id
    agreement_id := booking.agreement_id
    trip_serial := compute_trip_serial db booking
    letter_date := letter_date_val.isoformat
    placement_date := booking.placement_date.map Date.isoformat
    loa_number := booking.agreement.bind (fun ag => ag.loa_number)
    placement_ref_prefix := booking.agreement.bind (fun ag => ag.placement_ref_prefix)
    company_name := booking.company.bind (fun co => co.name)
    route_id := booking.route_id
    route_total_km := booking.route.map (fun r => r.total_km)
    lorry_capacity := booking.lorry.map (fun l => l.capacity)
    lorry_carrier_size := booking.lorry.map (fun l => l.carrier_size)
    loading := loading.map _canon_authority
    unloading := unloading.map _canon_authority
    materials := mts.map _canon_material_table
    requires_attachment := booking_requires_attachment_pdf booking }

end LettersPy

/-! ## Diff engine (`transport/routes/admin/letters.py`) -/

/-- A Python value reaching `_safe_text` / the `!=` comparisons of
`_compute_mod_diff`: the canonical payload's scalar field values. -/
inductive PyVal where
  | none
  | int (n : Int)
  | float (f : PyFloat)
  | str (s : String)
  | bool (b : Bool)
deriving DecidableEq, Repr

/-- `_safe_text`: `None` → `"-"`; numbers → `str(v)` (a Python `bool` is
an `int` to `isinstance`, so it renders as `True`/`False`); strings →
stripped, with `"-"` replacing the empty result. -/
def _safe_text : PyVal → String
  | .none => "-"
  | .int n => toString n
  | .float f => pyFloatStr f
  | .bool b => if b then "True" else "False"
  | .str s => let t := pyStrip s; if t = "" then "-" else t

/-- Lift an optional payload string to the value `dict.get` returns. -/
def optStrVal : Option String → PyVal
  | none => .none
  | some s => .str s

/-- Lift an optional payload int to the value `dict.get` returns. -/
def optIntVal : Option Int → PyVal
  | none => .none
  | some n => .int n

/-- Lift an optional payload float to the value `dict.get` returns. -/
def optFloatVal : Option PyFloat → PyVal
  | none => .none
  | some f => .float f

/-- `", ".join` / `" ; ".join`. -/
def joinSep (sep : String) : List String → String
  | [] => ""
  | [s] => s
  | s :: rest => s ++ sep ++ joinSep sep rest

/-- `_summarize_authority_list`: a comma-joined list of location codes,
falling back to the title where the code is empty; `"-"` for an empty
list. -/
def _summarize_authority_list (canon_list : List CanonAuthority) : String :=
  match canon_list with
  | [] => "-"
  | _ =>
    let parts := canon_list.map (fun a =>
      let code := pyStrip a.location_code
      let title := pyStrip (if a.title = "" then "-" else a.title)
      if code = "" then title else code)
    if parts = [] then "-" else joinSep ", " parts

/-- `_fmt_qty_unit`: quantity and unit as one display string. -/
def _fmt_qty_unit (qty : Option PyFloat) (unit : Option String) : String :=
  if qty = none ∧ pyStrip (orStr unit) = "" then ""
  else
    match qty with
    | none => pyStrip (orStr unit)
    | some q => pyStrip (pyFloatStr q ++ " " ++ pyStrip (orStr unit))

/-- `_summarize_materials`: one `mode | Qty: … | Amt: …` chunk per
material table — only the mode and the header totals are summarized;
the `lines` are not read. -/
def _summarize_materials (canon_mts : List CanonMaterial) : String :=
  match canon_mts with
  | [] => "-"
  | _ =>
    let chunks := canon_mts.map (fun mt =>
      let mode := if mt.mode = "" then "ITEM" else mt.mode
      let qty_txt := _fmt_qty_unit mt.total_quantity (some mt.total_quantity_unit)
      mode ++ " | Qty: " ++ (if qty_txt = "" then "-" else qty_txt) ++
        " | Amt: " ++ _safe_text (optFloatVal mt.total_amount))
    joinSep " ; " chunks

/-- The `ch` helper of `_compute_mod_diff`: emit one entry when the two
values differ. -/
def chEntry (label : String) (o n : PyVal) : List (String × String × String) :=
  if o = n then [] else [(label, _safe_text o, _safe_text n)]

/-- `_compute_mod_diff`: the ordered field-level diff between the
baseline canonical payload and the current one. -/
def _compute_mod_diff (baseline current : CanonSnapshot) :
    List (String × String × String) :=
  chEntry "Placement Date"
    (optStrVal baseline.placement_date) (optStrVal current.placement_date) ++
  chEntry "Loading Authorities"
    (.str (_summarize_authority_list baseline.loading))
    (.str (_summarize_authority_list current.loading)) ++
  chEntry "Unloading Authorities"
    (.str (_summarize_authority_list baseline.unloading))
    (.str (_summarize_authority_list current.unloading)) ++
  chEntry "Materials Summary"
    (.str (_summarize_materials baseline.materials))
    (.str (_summarize_materials current.materials)) ++
  chEntry "Route (Km)"
    (optIntVal baseline.route_total_km) (optIntVal current.route_total_km) ++
  chEntry "Lorry Capacity"
    (optIntVal baseline.lorry_capacity) (optIntVal current.lorry_capacity) ++
  chEntry "Carrier Size"
    (optStrVal baseline.lorry_carrier_size) (optStrVal current.lorry_carrier_size)

/-! ## Letter store (`BookingLetter` rows) and sequence allocation -/

/-- Modelled from the spec: the Document Record (`BookingLetter` is
imported from `transport.models` by the letters code but its class is not
among the source files).  Its fields are the columns the letters code
reads and writes: owning booking, document class (`letter_type`),
per-class sequence number, issue date, the stored snapshot JSON —
canonical payload, its digest, and for amendments the baseline reference
and diff list — and the rendered artifact's path. -/
structure LetterSnapshot where
  canonical : Option CanonSnapshot
  content_hash : Option String
  base_letter_id : Option Int := none
  base_content_hash : Option String := none
  trip_serial : Option Int := none
  letter_date_iso : Option String := none
  diffs : List (String × String × String) := []
deriving DecidableEq, Repr

/-- Modelled from the spec: a persisted `BookingLetter` row (see
`LetterSnapshot`). -/
structure BookingLetter where
  id : Int
  booking_id : Int
  letter_type : String
  sequence_no : Int
  letter_date : Date
  snapshot_json : Option LetterSnapshot
  pdf_path : String := ""
deriving DecidableEq, Repr

/-- The `booking_letter` table plus the database's id allocator: inserts
append (the table is append-only in this subsystem) and receive
`nextId`. -/
structure Store where
  letters : List BookingLetter
  nextId : Int
deriving DecidableEq, Repr

/-- The rows `BookingLetter.query.filter_by(booking_id=…, letter_type=…)`
returns, in table order. -/
def letterRows (store : Store) (booking_id : Int) (letter_type : String) :
    List BookingLetter :=
  store.letters.filter
    (fun L => L.booking_id == booking_id && L.letter_type == letter_type)

/-- `next_letter_sequence` of `transport/letters/storage.py`, and
likewise `_next_letter_sequence` of `transport/routes/admin/letters.py`
(their bodies are identical): order the `(booking_id, letter_type)` rows
by `sequence_no` descending, take the first, and return its sequence
plus one — or 1 when no row exists. -/
def next_letter_sequence (store : Store) (booking_id : Int) (letter_type : String) : Int :=
  match pySortBy (fun a b => decide (b.sequence_no ≤ a.sequence_no))
      (letterRows store booking_id letter_type) with
  | [] => 1
  | last :: _ => last.sequence_no + 1

/-! ## The issuance operation
(`generate_placement_advice`, POST path, `transport/routes/admin/letters.py`)

The route's observable outcomes become constructors: each distinct
flash/redirect/send_file behavior is one constructor, carrying the id of
the letter row served where one is.  The GET path only renders a page and
is not part of the issuance operation; the letter-date form field arrives
here already parsed (an unparseable date is rejected by the route before
any projection or persistence and leaves the store untouched). -/

/-- The observable outcome of one issuance request. -/
inductive IssueResult where
  | notFound
  | blocked
  | attachmentMissing
  | integrityDegraded (letterId : Int)
  | servedBaseline (letterId : Int)
  | newAmendment (letterId : Int)
  | firstIssued (letterId : Int)
deriving DecidableEq, Repr

/-- The `baseline_letter` query: `BookingLetter.query.filter_by(booking_id=…,
letter_type="PLACEMENT").order_by(BookingLetter.sequence_no.asc()).first()`. -/
def baseline_letter_query (store : Store) (booking_id : Int) : Option BookingLetter :=
  (pySortBy (fun a b => decide (a.sequence_no ≤ b.sequence_no))
    (letterRows store booking_id "PLACEMENT")).head?

/-- `generate_placement_advice` (POST): look the booking up; reject
cancelled bookings; require the attachment only for a first issuance with
`ATTACHED` materials; build the current canonical payload and digest;
then serve the baseline (recomputing its digest from its stored
canonical payload), degrade when that payload is missing, or mint a new
amendment / the baseline. -/
def generate_placement_advice (db : Db) (store : Store) (booking_id : Int)
    (letter_date_val : Date) (attachment_provided : Bool) : IssueResult × Store :=
  match db.bookings.find? (fun b => b.id == booking_id) with
  | none => (.notFound, store)
  | some booking =>
    let baseline_letter := baseline_letter_query store booking.id
    if booking.is_cancelled then (.blocked, store)
    else
      let requires_attachment := LettersPy.booking_requires_attachment_pdf booking
      if requires_attachment && baseline_letter.isNone && !attachment_provided then
        (.attachmentMissing, store)
      else
        let current_canon :=
          LettersPy.build_canonical_snapshot_for_placement db booking letter_date_val
        let current_hash := hash_canonical_snapshot current_canon
        match baseline_letter with
        | some bl =>
          let base_snapshot := bl.snapshot_json
          let base_canon := base_snapshot.bind (fun s => s.canonical)
          match base_canon with
          | none =>
            -- `if not base_canon or not base_hash:` — with no stored
            -- canonical payload the digest cannot be recomputed: degrade,
            -- serve the stored baseline, write nothing.
            (.integrityDegraded bl.id, store)
          | some c =>
            -- `base_hash = _hash_canonical_snapshot(base_canon)` — the
            -- stored `content_hash` is never trusted once a canonical
            -- payload exists; a recomputed digest is a 64-character hex
            -- string, never falsy.
            let base_hash := hash_canonical_snapshot c
            if base_hash = "" then (.integrityDegraded bl.id, store)
            else if base_hash = current_hash then
              (.servedBaseline bl.id, store)
            else
              let mod_seq := next_letter_sequence store booking.id "PLACEMENT_MOD"
              let diffs := _compute_mod_diff c current_canon
              let mod_letter : BookingLetter :=
                { id := store.nextId
                  booking_id := booking.id
                  letter_type := "PLACEMENT_MOD"
                  sequence_no := mod_seq
                  letter_date := letter_date_val
                  snapshot_json := some
                    { canonical := some current_canon
                      content_hash := some current_hash
                      base_letter_id := some bl.id
                      base_content_hash := some base_hash
                      diffs := diffs } }
              (.newAmendment store.nextId,
               { letters := store.letters ++ [mod_letter], nextId := store.nextId + 1 })
        | none =>
          let seq := next_letter_sequence store booking.id "PLACEMENT"
          let letter : BookingLetter :=
            { id := store.nextId
              booking_id := booking.id
              letter_type := "PLACEMENT"
              sequence_no := seq
              letter_date := letter_date_val
              snapshot_json := some
                { canonical := some current_canon
                  content_hash := some current_hash
                  trip_serial := some (compute_trip_serial db booking)
                  letter_date_iso := some letter_date_val.isoformat } }
          (.firstIssued store.nextId,
           { letters := store.letters ++ [letter], nextId := store.nextId + 1 })

/-! ## Helper views of the issuance operation's writes -/

/-- The amendment row the Changed branch of `generate_placement_advice`
inserts, given the booking, the baseline row `bl` and its stored
canonical payload `c`. -/
def mod_letter_record (db : Db) (store : Store) (booking : Booking) (letter_date_val : Date)
    (bl : BookingLetter) (c : CanonSnapshot) : BookingLetter :=
  let current_canon := LettersPy.build_canonical_snapshot_for_placement db booking letter_date_val
  { id := store.nextId
    booking_id := booking.id
    letter_type := "PLACEMENT_MOD"
    sequence_no := next_letter_sequence store booking.id "PLACEMENT_MOD"
    letter_date := letter_date_val
    snapshot_json := some
      { canonical := some current_canon
        content_hash := some (hash_canonical_snapshot current_canon)
        base_letter_id := some bl.id
        base_content_hash := some (hash_canonical_snapshot c)
        diffs := _compute_mod_diff c current_canon } }

/-- The baseline row the first-issuance branch of
`generate_placement_advice` inserts. -/
def first_letter_record (db : Db) (store : Store) (booking : Booking)
    (letter_date_val : Date) : BookingLetter :=
  let current_canon := LettersPy.build_canonical_snapshot_for_placement db booking letter_date_val
  { id := store.nextId
    booking_id := booking.id
    letter_type := "PLACEMENT"
    sequence_no := next_letter_sequence store booking.id "PLACEMENT"
    letter_date := letter_date_val
    snapshot_json := some
      { canonical := some current_canon
        content_hash := some (hash_canonical_snapshot current_canon)
        trip_serial := some (compute_trip_serial db booking)
        letter_date_iso := some letter_date_val.isoformat } }

/-- The amendment sequence numbers currently stored for a booking, in
table order. -/
def modSeqs (store : Store) (booking_id : Int) : List Int :=
  (letterRows store booking_id "PLACEMENT_MOD").map (fun L => L.sequence_no)

/-- `[1, 2, …, k]`. -/
def seqList (k : Nat) : List Int :=
  (List.range k).map (fun i : Nat => (i : Int) + 1)

/-! ## The tracked fields of the diff engine

`trackedFields` names, in the diff engine's emission order, the seven
compared fields together with the representation `_compute_mod_diff`
actually compares for each: the raw payload value for scalar fields and
the summary string for the authority lists and materials. -/

/-- The seven tracked fields and their compared representations. -/
def trackedFields : List (String × (CanonSnapshot → PyVal)) :=
  [("Placement Date", fun c => optStrVal c.placement_date),
   ("Loading Authorities", fun c => .str (_summarize_authority_list c.loading)),
   ("Unloading Authorities", fun c => .str (_summarize_authority_list c.unloading)),
   ("Materials Summary", fun c => .str (_summarize_materials c.materials)),
   ("Route (Km)", fun c => optIntVal c.route_total_km),
   ("Lorry Capacity", fun c => optIntVal c.lorry_capacity),
   ("Carrier Size", fun c => optStrVal c.lorry_carrier_size)]

/-- The diff a field list induces: one entry per field whose compared
representation differs (the specification's reading of the diff engine,
to be proved equal to `_compute_mod_diff` over `trackedFields`). -/
def specDiff (fields : List (String × (CanonSnapshot → PyVal)))
    (A B : CanonSnapshot) : List (String × String × String) :=
  fields.filterMap (fun tf =>
    if tf.2 A = tf.2 B then none
    else some (tf.1, _safe_text (tf.2 A), _safe_text (tf.2 B)))

/-! ## Concrete fixtures -/

/-- The letter date of the concrete scenarios. -/
def d0 : Date := ⟨2024, 1, 5⟩

/-- A minimal active booking, placement date 2024-01-10. -/
def exB0 : Booking :=
  { id := 1, agreement_id := 1, status := "ACTIVE",
    placement_date := some ⟨2024, 1, 10⟩, route_id := 3,
    agreement := none, company := none, route := none, lorry := none,
    booking_authorities := [], material_tables := [] }

/-- `exB0` after mutating the placement date to 2024-01-12. -/
def exB1 : Booking :=
  { exB0 with placement_date := some ⟨2024, 1, 12⟩ }

/-- `exB0` cancelled. -/
def exBC : Booking :=
  { exB0 with status := "CANCELLED" }

/-- Database holding the original booking. -/
def exDb0 : Db := ⟨[exB0]⟩

/-- Database after the placement-date mutation. -/
def exDb1 : Db := ⟨[exB1]⟩

/-- Database holding the cancelled booking. -/
def exDbC : Db := ⟨[exBC]⟩

/-- The original booking's canonical payload. -/
def exCanon0 : CanonSnapshot :=
  LettersPy.build_canonical_snapshot_for_placement exDb0 exB0 d0

/-- The mutated booking's canonical payload. -/
def exCanon1 : CanonSnapshot :=
  LettersPy.build_canonical_snapshot_for_placement exDb1 exB1 d0

/-- The issued baseline row for `exB0`. -/
def exBaseline : BookingLetter :=
  { id := 10, booking_id := 1, letter_type := "PLACEMENT", sequence_no := 1,
    letter_date := d0,
    snapshot_json := some
      { canonical := some exCanon0
        content_hash := some (hash_canonical_snapshot exCanon0) } }

/-- Store holding the baseline for `exB0`. -/
def exStore0 : Store := ⟨[exBaseline], 100⟩

/-- A baseline row whose stored digest is missing though its canonical
payload is present (the C8 configuration). -/
def exBaselineNoHash : BookingLetter :=
  { exBaseline with
    snapshot_json := some { canonical := some exCanon0, content_hash := none } }

/-- Store holding `exBaselineNoHash`. -/
def exStoreNoHash : Store := ⟨[exBaselineNoHash], 100⟩

/-- A legacy baseline row with no stored canonical payload. -/
def exBaselineNoCanon : BookingLetter :=
  { exBaseline with
    snapshot_json := some { canonical := none, content_hash := some "legacy" } }

/-- Store holding `exBaselineNoCanon`. -/
def exStoreNoCanon : Store := ⟨[exBaselineNoCanon], 100⟩

/-- A one-line ITEM material table (qty 10, rate 5, amount 50). -/
def exMat0 : BookingMaterial :=
  { id := some 9, sequence_index := some 1, booking_authority_id := none,
    mode := some "ITEM", total_quantity := some ⟨10⟩,
    total_quantity_unit := some "Ton", total_amount := some ⟨50⟩,
    lines := [{ sequence_index := some 1, description := some "Cable",
                unit := some "Ton", quantity := some ⟨10⟩,
                rate := some ⟨5⟩, amount := some ⟨50⟩ }] }

/-- `exMat0` with only the line description changed. -/
def exMat1 : BookingMaterial :=
  { exMat0 with lines := [{ sequence_index := some 1, description := some "Wire",
                            unit := some "Ton", quantity := some ⟨10⟩,
                            rate := some ⟨5⟩, amount := some ⟨50⟩ }] }

/-- `exB0` with the `exMat0` material table. -/
def exBM0 : Booking := { exB0 with material_tables := [exMat0] }

/-- `exB0` with the `exMat1` material table. -/
def exBM1 : Booking := { exB0 with material_tables := [exMat1] }

/-- Canonical payload of `exBM0`. -/
def exCanonM0 : CanonSnapshot :=
  LettersPy.build_canonical_snapshot_for_placement ⟨[exBM0]⟩ exBM0 d0

/-- Canonical payload of `exBM1`. -/
def exCanonM1 : CanonSnapshot :=
  LettersPy.build_canonical_snapshot_for_placement ⟨[exBM1]⟩ exBM1 d0

/-- A loading authority whose role string carries a trailing space. -/
def exBA9 : BookingAuthority :=
  { authority_id := some 4, role := some "LOADING ", sequence_index := some 1,
    authority := some { authority_title := some "SM",
                        location := some { code := some "ED" } } }

/-- `exB0` with the trailing-space-role authority. -/
def exB9 : Booking := { exB0 with booking_authorities := [exBA9] }

/-- Database holding `exB9`. -/
def exDb9 : Db := ⟨[exB9]⟩

/-- A sibling booking of the same agreement with a lower id. -/
def exB10a : Booking := { exB0 with id := 1 }

/-- The booking whose trip serial is observed (id 2, same agreement). -/
def exB10b : Booking := { exB0 with id := 2 }

/-- Database with both agreement siblings. -/
def exDb10 : Db := ⟨[exB10a, exB10b]⟩

/-- Database after the lower-id sibling is removed. -/
def exDb10r : Db := ⟨[exB10b]⟩

/-- The `exBA9` authority with its role already trimmed. -/
def exBA9t : BookingAuthority :=
  { exBA9 with role := some "LOADING" }

/-- `exB0` with the trimmed-role authority. -/
def exB9t : Booking := { exB0 with booking_authorities := [exBA9t] }

/-- Database holding `exB9t`. -/
def exDb9t : Db := ⟨[exB9t]⟩

/-! # Lemmas and theorems -/

/-! ## Sorting lemmas: `pySortBy` permutes and sorts -/

theorem pyInsertBy_perm (le : α → α → Bool) (a : α) :
    ∀ l : List α, List.Perm (pyInsertBy le a l) (a :: l)
  | [] => List.Perm.refl _
  | b :: t => by
    simp only [pyInsertBy]
    split
    · exact List.Perm.refl _
    · exact ((pyInsertBy_perm le a t).cons b).trans (List.Perm.swap a b t)

theorem pySortBy_perm (le : α → α → Bool) :
    ∀ l : List α, List.Perm (pySortBy le l) l
  | [] => List.Perm.refl _
  | a :: t =>
    (pyInsertBy_perm le a (pySortBy le t)).trans ((pySortBy_perm le t).cons a)

theorem mem_pyInsertBy (le : α → α → Bool) (a x : α) (l : List α) :
    x ∈ pyInsertBy le a l ↔ x = a ∨ x ∈ l := by
  rw [(pyInsertBy_perm le a l).mem_iff]
  simp

theorem pyInsertBy_pairwise {R : α → α → Prop} [DecidableRel R]
    (htot : ∀ x y, ¬ R x y → R y x) (htrans : Transitive R) (a : α) :
    ∀ l : List α, l.Pairwise R →
      (pyInsertBy (fun x y => decide (R x y)) a l).Pairwise R
  | [], _ => by simp [pyInsertBy]
  | b :: t, h => by
    rcases List.pairwise_cons.mp h with ⟨hb, ht⟩
    simp only [pyInsertBy]
    by_cases hab : R a b
    · rw [if_pos (by simpa using hab)]
      refine List.pairwise_cons.mpr ⟨?_, h⟩
      intro x hx
      rcases List.mem_cons.mp hx with rfl | hx
      · exact hab
      · exact htrans hab (hb x hx)
    · rw [if_neg (by simpa using hab)]
      refine List.pairwise_cons.mpr ⟨?_, pyInsertBy_pairwise htot htrans a t ht⟩
      intro x hx
      rcases (mem_pyInsertBy _ a x t).mp hx with rfl | hx
      · exact htot _ _ hab
      · exact hb x hx

theorem pySortBy_pairwise {R : α → α → Prop} [DecidableRel R]
    (htot : ∀ x y, ¬ R x y → R y x) (htrans : Transitive R) :
    ∀ l : List α, (pySortBy (fun x y => decide (R x y)) l).Pairwise R
  | [] => List.Pairwise.nil
  | a :: t =>
    pyInsertBy_pairwise htot htrans a _ (pySortBy_pairwise htot htrans t)

/-- The head of a descending sort is a maximum of the list. -/
theorem sortDesc_head_max (f : α → Int) (l : List α) (h : α) (t : List α)
    (heq : pySortBy (fun a b => decide (f b ≤ f a)) l = h :: t) :
    h ∈ l ∧ ∀ x ∈ l, f x ≤ f h := by
  have hperm := pySortBy_perm (fun a b => decide (f b ≤ f a)) l
  rw [heq] at hperm
  have hpw : (pySortBy (fun a b => decide (f b ≤ f a)) l).Pairwise
      (fun a b => f b ≤ f a) := by
    exact pySortBy_pairwise (R := fun a b => f b ≤ f a)
      (fun x y hxy => le_of_not_le hxy)
      (fun x y z hxy hyz => le_trans hyz hxy) l
  rw [heq] at hpw
  rcases List.pairwise_cons.mp hpw with ⟨hhd, _⟩
  refine ⟨hperm.subset (List.mem_cons_self h t), ?_⟩
  intro x hx
  rcases List.mem_cons.mp (hperm.symm.subset hx) with rfl | hx'
  · exact le_refl _
  · exact hhd x hx'

theorem pySortBy_eq_nil (le : α → α → Bool) (l : List α)
    (h : pySortBy le l = []) : l = [] := by
  have := (pySortBy_perm le l).length_eq
  rw [h] at this
  exact List.length_eq_zero.mp this.symm

/-! ## Sequence allocator lemmas -/

/-- The allocator's postcondition: 1 on an empty row set, otherwise one
plus the maximal existing sequence number. -/
theorem next_letter_sequence_spec (store : Store) (bid : Int) (t : String) :
    (letterRows store bid t = [] → next_letter_sequence store bid t = 1) ∧
    (letterRows store bid t ≠ [] → ∃ m ∈ letterRows store bid t,
      next_letter_sequence store bid t = m.sequence_no + 1 ∧
      ∀ x ∈ letterRows store bid t, x.sequence_no ≤ m.sequence_no) := by
  constructor
  · intro h
    simp [next_letter_sequence, h, pySortBy]
  · intro h
    unfold next_letter_sequence
    rcases hs : pySortBy (fun a b => decide (b.sequence_no ≤ a.sequence_no))
        (letterRows store bid t) with _ | ⟨m, rest⟩
    · exact absurd (pySortBy_eq_nil _ _ hs) h
    · rcases sortDesc_head_max (fun L => L.sequence_no) _ m rest hs with ⟨hm, hmax⟩
      refine ⟨m, hm, ?_, hmax⟩
      rw [hs]

/-- Appending a freshly numbered row bumps the allocator by exactly one. -/
theorem next_after_insert (store : Store) (L : BookingLetter) (n' : Int)
    (bid : Int) (t : String)
    (hbid : L.booking_id = bid) (ht : L.letter_type = t)
    (hseq : L.sequence_no = next_letter_sequence store bid t) :
    next_letter_sequence ⟨store.letters ++ [L], n'⟩ bid t =
      next_letter_sequence store bid t + 1 := by
  have hrows : letterRows ⟨store.letters ++ [L], n'⟩ bid t =
      letterRows store bid t ++ [L] := by
    simp [letterRows, List.filter_append, hbid, ht]
  have hne : letterRows ⟨store.letters ++ [L], n'⟩ bid t ≠ [] := by
    simp [hrows]
  rcases (next_letter_sequence_spec ⟨store.letters ++ [L], n'⟩ bid t).2 hne with
    ⟨m, hm, hnext, hmax⟩
  have hLmem : L ∈ letterRows ⟨store.letters ++ [L], n'⟩ bid t := by
    simp [hrows]
  have hmL : m = L := by
    rw [hrows] at hm
    rcases List.mem_append.mp hm with hm' | hm'
    · -- m was an old row: its sequence is below the fresh one, yet it is
      -- maximal — contradiction.
      exfalso
      have hold := (next_letter_sequence_spec store bid t).2
        (by intro hnil; rw [hnil] at hm'; exact (List.not_mem_nil m) hm')
      rcases hold with ⟨m0, hm0, hnext0, hmax0⟩
      have h1 : L.sequence_no ≤ m.sequence_no := hmax L hLmem
      have h2 : m.sequence_no ≤ m0.sequence_no := hmax0 m hm'
      rw [hseq, hnext0] at h1
      omega
    · simpa using hm'
  rw [hnext, hmL, hseq]

/-! ## The digest is never the empty (falsy) string -/

theorem sha256Hex_ne_empty (msg : List Nat) : sha256Hex msg ≠ "" := by
  unfold sha256Hex
  intro h
  have hdata := congrArg String.data h
  simp [hexWord] at hdata

theorem hash_canonical_snapshot_ne_empty (c : CanonSnapshot) :
    hash_canonical_snapshot c ≠ "" :=
  sha256Hex_ne_empty _

/-! ## Branch lemmas for the issuance operation -/

theorem generate_eq_blocked (db : Db) (store : Store) (bid : Int) (d : Date)
    (att : Bool) (booking : Booking)
    (h1 : db.bookings.find? (fun b => b.id == bid) = some booking)
    (h2 : booking.is_cancelled = true) :
    generate_placement_advice db store bid d att = (.blocked, store) := by
  unfold generate_placement_advice
  rw [h1]
  simp [h2]

theorem generate_eq_degraded (db : Db) (store : Store) (bid : Int) (d : Date)
    (att : Bool) (booking : Booking) (bl : BookingLetter)
    (h1 : db.bookings.find? (fun b => b.id == bid) = some booking)
    (h2 : booking.is_cancelled = false)
    (h3 : baseline_letter_query store booking.id = some bl)
    (h4 : bl.snapshot_json.bind (fun s => s.canonical) = none) :
    generate_placement_advice db store bid d att = (.integrityDegraded bl.id, store) := by
  unfold generate_placement_advice
  rw [h1]
  simp [h2, h3, h4]

theorem generate_eq_unchanged (db : Db) (store : Store) (bid : Int) (d : Date)
    (att : Bool) (booking : Booking) (bl : BookingLetter) (c : CanonSnapshot)
    (h1 : db.bookings.find? (fun b => b.id == bid) = some booking)
    (h2 : booking.is_cancelled = false)
    (h3 : baseline_letter_query store booking.id = some bl)
    (h4 : bl.snapshot_json.bind (fun s => s.canonical) = some c)
    (h5 : hash_canonical_snapshot c =
      hash_canonical_snapshot
        (LettersPy.build_canonical_snapshot_for_placement db booking d)) :
    generate_placement_advice db store bid d att = (.servedBaseline bl.id, store) := by
  unfold generate_placement_advice
  rw [h1]
  simp [h2, h3, h4, hash_canonical_snapshot_ne_empty, h5]

theorem generate_eq_changed (db : Db) (store : Store) (bid : Int) (d : Date)
    (att : Bool) (booking : Booking) (bl : BookingLetter) (c : CanonSnapshot)
    (h1 : db.bookings.find? (fun b => b.id == bid) = some booking)
    (h2 : booking.is_cancelled = false)
    (h3 : baseline_letter_query store booking.id = some bl)
    (h4 : bl.snapshot_json.bind (fun s => s.canonical) = some c)
    (h6 : hash_canonical_snapshot c ≠
      hash_canonical_snapshot
        (LettersPy.build_canonical_snapshot_for_placement db booking d)) :
    generate_placement_advice db store bid d att =
      (.newAmendment store.nextId,
       ⟨store.letters ++ [mod_letter_record db store booking d bl c],
        store.nextId + 1⟩) := by
  unfold generate_placement_advice
  rw [h1]
  simp [h2, h3, h4, hash_canonical_snapshot_ne_empty, h6, mod_letter_record]

theorem generate_eq_first (db : Db) (store : Store) (bid : Int) (d : Date)
    (att : Bool) (booking : Booking)
    (h1 : db.bookings.find? (fun b => b.id == bid) = some booking)
    (h2 : booking.is_cancelled = false)
    (h3 : baseline_letter_query store booking.id = none)
    (hatt : (LettersPy.booking_requires_attachment_pdf booking && !att) = false) :
    generate_placement_advice db store bid d att =
      (.firstIssued store.nextId,
       ⟨store.letters ++ [first_letter_record db store booking d],
        store.nextId + 1⟩) := by
  unfold generate_placement_advice
  rw [h1]
  simp [h2, h3, hatt, first_letter_record]

/-- Appending a non-`PLACEMENT` row leaves the baseline query unchanged. -/
theorem baseline_query_append (store : Store) (L : BookingLetter) (n' : Int)
    (bid : Int) (hL : L.letter_type ≠ "PLACEMENT") :
    baseline_letter_query ⟨store.letters ++ [L], n'⟩ bid =
      baseline_letter_query store bid := by
  unfold baseline_letter_query
  have : letterRows ⟨store.letters ++ [L], n'⟩ bid "PLACEMENT" =
      letterRows store bid "PLACEMENT" := by
    simp [letterRows, List.filter_append, hL]
  rw [this]

set_option maxRecDepth 4000000

/-! ## Key-uniqueness helper for labelled field lists -/

theorem keys_nodup_inj {β : Type} (xs : List (String × β))
    (h : (xs.map Prod.fst).Nodup) {l : String} {f g : β}
    (hf : (l, f) ∈ xs) (hg : (l, g) ∈ xs) : f = g := by
  induction xs with
  | nil => cases hf
  | cons x rest ih =>
    rw [List.map_cons] at h
    rcases List.nodup_cons.mp h with ⟨hx, hrest⟩
    rcases List.mem_cons.mp hf with rfl | hf'
    · rcases List.mem_cons.mp hg with heq | hg'
      · exact congrArg Prod.snd heq.symm
      · exact absurd (List.mem_map_of_mem Prod.fst hg') (by simpa using hx)
    · rcases List.mem_cons.mp hg with rfl | hg'
      · exact absurd (List.mem_map_of_mem Prod.fst hf') (by simpa using hx)
      · exact ih hrest hf' hg'

/-- Membership in the field-list diff: an entry is present exactly when
some listed field's compared representations differ and the entry renders
them through `_safe_text`. -/
theorem mem_specDiff (fields : List (String × (CanonSnapshot → PyVal)))
    (A B : CanonSnapshot) (l o n : String) :
    (l, o, n) ∈ specDiff fields A B ↔
      ∃ f, (l, f) ∈ fields ∧ f A ≠ f B ∧
        o = _safe_text (f A) ∧ n = _safe_text (f B) := by
  induction fields with
  | nil => simp [specDiff]
  | cons tf rest ih =>
    obtain ⟨lbl, f0⟩ := tf
    unfold specDiff at ih ⊢
    rw [List.filterMap_cons]
    by_cases h : f0 A = f0 B
    · rw [if_pos h, ih]
      constructor
      · rintro ⟨f, hf, hne, ho, hn⟩
        exact ⟨f, List.mem_cons_of_mem _ hf, hne, ho, hn⟩
      · rintro ⟨f, hf, hne, ho, hn⟩
        rcases List.mem_cons.mp hf with heq | hf'
        · simp only [Prod.mk.injEq] at heq
          rcases heq with ⟨rfl, rfl⟩
          exact absurd h hne
        · exact ⟨f, hf', hne, ho, hn⟩
    · rw [if_neg h, List.mem_cons]
      constructor
      · rintro (heq | hm)
        · simp only [Prod.mk.injEq] at heq
          rcases heq with ⟨rfl, rfl, rfl⟩
          exact ⟨f0, List.mem_cons_self _ _, h, rfl, rfl⟩
        · rcases ih.mp hm with ⟨f, hf, hne, ho, hn⟩
          exact ⟨f, List.mem_cons_of_mem _ hf, hne, ho, hn⟩
      · rintro ⟨f, hf, hne, ho, hn⟩
        rcases List.mem_cons.mp hf with heq | hf'
        · simp only [Prod.mk.injEq] at heq
          rcases heq with ⟨rfl, rfl⟩
          left
          rw [ho, hn]
        · right
          exact ih.mpr ⟨f, hf', hne, ho, hn⟩

/-! ## Claim theorems -/

/-- C3: for any fixed booking state, the digest of the canonical snapshot
is independent of the letter date — `letter_date` is stripped before
serialization, in both duplicated hasher/builder pairs. -/
theorem letter_date_excluded_from_digest (db : Db) (booking : Booking) (d1 d2 : Date) :
    hash_canonical_snapshot
        (LettersPy.build_canonical_snapshot_for_placement db booking d1) =
      hash_canonical_snapshot
        (LettersPy.build_canonical_snapshot_for_placement db booking d2) ∧
    hash_canonical_snapshot
        (SnapshotsPy.build_canonical_snapshot_for_placement db booking d1) =
      hash_canonical_snapshot
        (SnapshotsPy.build_canonical_snapshot_for_placement db booking d2) :=
  ⟨rfl, rfl⟩

/-- C6: a cancelled booking's issuance attempt is rejected outright and
the letter store is left exactly as it was — no baseline and no amendment
can ever be added for it. -/
theorem cancelled_blocks_issuance (db : Db) (store : Store) (bid : Int)
    (d : Date) (att : Bool) (booking : Booking)
    (h1 : db.bookings.find? (fun b => b.id == bid) = some booking)
    (h2 : booking.is_cancelled = true) :
    generate_placement_advice db store bid d att = (.blocked, store) :=
  generate_eq_blocked db store bid d att booking h1 h2

/-- Witness for C6's theorem at the concrete cancelled booking. -/
theorem cancelled_blocks_issuance_witness :
    generate_placement_advice exDbC exStore0 1 d0 true = (.blocked, exStore0) :=
  cancelled_blocks_issuance exDbC exStore0 1 d0 true exBC (by decide) (by decide)

/-- C5: when the current digest equals the digest recomputed from the
baseline's stored canonical payload, the operation serves the existing
baseline and leaves the store untouched; calling twice in a row returns
the same document both times and the second call inserts nothing. -/
theorem unchanged_reissue_writes_nothing (db : Db) (store : Store) (bid : Int)
    (d : Date) (att : Bool) (booking : Booking) (bl : BookingLetter)
    (c : CanonSnapshot)
    (h1 : db.bookings.find? (fun b => b.id == bid) = some booking)
    (h2 : booking.is_cancelled = false)
    (h3 : baseline_letter_query store booking.id = some bl)
    (h4 : bl.snapshot_json.bind (fun s => s.canonical) = some c)
    (h5 : hash_canonical_snapshot c =
      hash_canonical_snapshot
        (LettersPy.build_canonical_snapshot_for_placement db booking d)) :
    generate_placement_advice db store bid d att = (.servedBaseline bl.id, store) ∧
    generate_placement_advice db
        (generate_placement_advice db store bid d att).2 bid d att =
      (.servedBaseline bl.id, store) := by
  have h := generate_eq_unchanged db store bid d att booking bl c h1 h2 h3 h4 h5
  refine ⟨h, ?_⟩
  rw [h]
  exact h

/-- Witness for C5's theorem: the unchanged booking `exB0` with its
issued baseline. -/
theorem unchanged_reissue_writes_nothing_witness :
    generate_placement_advice exDb0 exStore0 1 d0 true =
      (.servedBaseline 10, exStore0) ∧
    generate_placement_advice exDb0
        (generate_placement_advice exDb0 exStore0 1 d0 true).2 1 d0 true =
      (.servedBaseline 10, exStore0) :=
  unchanged_reissue_writes_nothing exDb0 exStore0 1 d0 true exB0 exBaseline
    exCanon0 (by decide) (by decide) (by decide) (by decide) rfl

/-- C8 (amended): the degraded fallback triggers exactly when the stored
baseline has no parseable canonical payload; then the stored baseline is
served with an informational flag, nothing is raised, no change detection
or amendment happens, and the store is unchanged.  (A missing stored
digest alone does not degrade: the digest is recomputed from the stored
payload.) -/
theorem integrity_degraded_serves_baseline (db : Db) (store : Store)
    (bid : Int) (d : Date) (att : Bool) (booking : Booking) (bl : BookingLetter)
    (h1 : db.bookings.find? (fun b => b.id == bid) = some booking)
    (h2 : booking.is_cancelled = false)
    (h3 : baseline_letter_query store booking.id = some bl)
    (h4 : bl.snapshot_json.bind (fun s => s.canonical) = none) :
    generate_placement_advice db store bid d att =
      (.integrityDegraded bl.id, store) :=
  generate_eq_degraded db store bid d att booking bl h1 h2 h3 h4

/-- Witness for C8's amended theorem: a baseline with no stored canonical
payload is served verbatim and nothing is written. -/
theorem integrity_degraded_serves_baseline_witness :
    generate_placement_advice exDb1 exStoreNoCanon 1 d0 true =
      (.integrityDegraded 10, exStoreNoCanon) :=
  integrity_degraded_serves_baseline exDb1 exStoreNoCanon 1 d0 true exB1
    exBaselineNoCanon (by decide) (by decide) (by decide) (by decide)

/-- C2 (amended): in the diff, date fields are rendered in the stored ISO
`yyyy-mm-dd` form (the canonical payload stores `placement_date` as
`date.isoformat()`, and the diff prints that value unchanged), and an
absent value renders as the literal placeholder `"-"`; mutating only the
placement date yields exactly one entry carrying the two ISO strings. -/
theorem diff_renders_iso_dates (A : CanonSnapshot) (s1 s2 : String)
    (hne : s1 ≠ s2) (ht1 : pyStrip s1 = s1) (hs1 : s1 ≠ "")
    (ht2 : pyStrip s2 = s2) (hs2 : s2 ≠ "") :
    _compute_mod_diff { A with placement_date := some s1 }
        { A with placement_date := some s2 } =
      [("Placement Date", s1, s2)] ∧
    _safe_text PyVal.none = "-" ∧
    (∀ (db : Db) (b : Booking) (d : Date),
      (LettersPy.build_canonical_snapshot_for_placement db b d).placement_date =
        b.placement_date.map Date.isoformat) := by
  refine ⟨?_, rfl, fun db b d => rfl⟩
  unfold _compute_mod_diff chEntry
  simp only [optStrVal, _safe_text]
  rw [if_neg (by simp [hne])]
  simp [ht1, ht2, hs1, hs2]

/-- C2 counterexample: the concrete placement-date mutation produces the
ISO-formatted entry, not the `dd-mm-yyyy` entry the claim states. -/
theorem diff_date_format_counterexample :
    _compute_mod_diff exCanon0 exCanon1 =
      [("Placement Date", "2024-01-10", "2024-01-12")] ∧
    _compute_mod_diff exCanon0 exCanon1 ≠
      [("Placement Date", "10-01-2024", "12-01-2024")] := by
  decide

/-- Witness for C2's amended theorem at the concrete ISO dates. -/
theorem diff_renders_iso_dates_witness :
    _compute_mod_diff { exCanon0 with placement_date := some "2024-01-10" }
        { exCanon0 with placement_date := some "2024-01-12" } =
      [("Placement Date", "2024-01-10", "2024-01-12")] ∧
    _safe_text PyVal.none = "-" ∧
    (∀ (db : Db) (b : Booking) (d : Date),
      (LettersPy.build_canonical_snapshot_for_placement db b d).placement_date =
        b.placement_date.map Date.isoformat) :=
  diff_renders_iso_dates exCanon0 "2024-01-10" "2024-01-12"
    (by decide) (by decide) (by decide) (by decide) (by decide)

/-- One step of the field-list diff: it is the `ch` emission of the head
field followed by the diff of the remaining fields. -/
theorem specDiff_cons (tf : String × (CanonSnapshot → PyVal))
    (rest : List (String × (CanonSnapshot → PyVal))) (A B : CanonSnapshot) :
    specDiff (tf :: rest) A B =
      chEntry tf.1 (tf.2 A) (tf.2 B) ++ specDiff rest A B := by
  unfold specDiff chEntry
  rw [List.filterMap_cons]
  by_cases h : tf.2 A = tf.2 B
  · rw [if_pos h, if_pos h]
    rfl
  · rw [if_neg h, if_neg h]
    rfl

/-- C4 (amended): the diff engine emits, in its fixed order, exactly one
entry for each of the seven tracked fields whose *compared
representation* differs — the raw value for scalar fields, the summary
string for the authority lists and for materials (mode and header totals
only) — and no entry for a field whose compared representation is equal;
a change buried in the materials structure that leaves the per-table
summaries equal therefore produces no entry at all. -/
theorem diff_tracked_fields (A B : CanonSnapshot) :
    _compute_mod_diff A B = specDiff trackedFields A B ∧
    (∀ l f, (l, f) ∈ trackedFields →
      ((∃ o n, (l, o, n) ∈ _compute_mod_diff A B) ↔ f A ≠ f B)) := by
  have hnd : (trackedFields.map Prod.fst).Nodup := by decide
  have heq : _compute_mod_diff A B = specDiff trackedFields A B := by
    simp only [trackedFields, specDiff_cons]
    simp only [specDiff, List.filterMap_nil, List.append_nil]
    unfold _compute_mod_diff
    simp only [List.append_assoc]
  refine ⟨heq, ?_⟩
  intro l f hf
  constructor
  · rintro ⟨o, n, hm⟩
    rw [heq] at hm
    rcases (mem_specDiff trackedFields A B l o n).mp hm with ⟨g, hg, hne, _, _⟩
    rwa [keys_nodup_inj trackedFields hnd hf hg]
  · intro hne
    refine ⟨_safe_text (f A), _safe_text (f B), ?_⟩
    rw [heq]
    exact (mem_specDiff trackedFields A B l _ _).mpr ⟨f, hf, hne, rfl, rfl⟩

/-- C4 counterexample: the two concrete payloads differ inside the
materials structure (a line description changed), yet the diff is empty —
no `"Materials Summary"` entry is emitted, contradicting the claim that
any difference anywhere inside materials collapses to one entry. -/
theorem materials_atomic_counterexample :
    exCanonM0.materials ≠ exCanonM1.materials ∧
    _compute_mod_diff exCanonM0 exCanonM1 = [] := by
  decide

/-- Witness for C4's amended theorem: the placement-date field of the
concrete mutated pair differs, so the diff carries its entry. -/
theorem diff_tracked_fields_witness :
    ∃ o n, ("Placement Date", o, n) ∈ _compute_mod_diff exCanon0 exCanon1 :=
  ((diff_tracked_fields exCanon0 exCanon1).2 "Placement Date"
    (fun c => optStrVal c.placement_date)
    (by unfold trackedFields; exact List.mem_cons_self _ _)).mpr (by decide)

/-- C1 (amended): when a baseline exists with a parseable stored canonical
payload and the current digest differs from the baseline's, *every* call
mints a new amendment row — there is no digest-based reuse.  Two calls
with no intervening mutation insert two amendment rows that carry the
same content digest and consecutive sequence numbers and ids. -/
theorem amendment_no_dedup (db : Db) (store : Store) (bid : Int) (d : Date)
    (att : Bool) (booking : Booking) (bl : BookingLetter) (c : CanonSnapshot)
    (h1 : db.bookings.find? (fun b => b.id == bid) = some booking)
    (h2 : booking.is_cancelled = false)
    (h3 : baseline_letter_query store booking.id = some bl)
    (h4 : bl.snapshot_json.bind (fun s => s.canonical) = some c)
    (h6 : hash_canonical_snapshot c ≠
      hash_canonical_snapshot
        (LettersPy.build_canonical_snapshot_for_placement db booking d)) :
    ∃ m1 m2 : BookingLetter,
      generate_placement_advice db store bid d att =
        (.newAmendment m1.id, ⟨store.letters ++ [m1], store.nextId + 1⟩) ∧
      generate_placement_advice db ⟨store.letters ++ [m1], store.nextId + 1⟩
          bid d att =
        (.newAmendment m2.id, ⟨store.letters ++ [m1, m2], store.nextId + 2⟩) ∧
      m1.letter_type = "PLACEMENT_MOD" ∧ m2.letter_type = "PLACEMENT_MOD" ∧
      m1.booking_id = booking.id ∧ m2.booking_id = booking.id ∧
      m1.id = store.nextId ∧ m2.id = store.nextId + 1 ∧
      m2.sequence_no = m1.sequence_no + 1 ∧
      (m1.snapshot_json.bind fun s => s.content_hash) =
        some (hash_canonical_snapshot
          (LettersPy.build_canonical_snapshot_for_placement db booking d)) ∧
      (m2.snapshot_json.bind fun s => s.content_hash) =
        some (hash_canonical_snapshot
          (LettersPy.build_canonical_snapshot_for_placement db booking d)) := by
  have hcall1 := generate_eq_changed db store bid d att booking bl c h1 h2 h3 h4 h6
  set m1 := mod_letter_record db store booking d bl c with hm1
  set store1 : Store := ⟨store.letters ++ [m1], store.nextId + 1⟩ with hstore1
  have h3' : baseline_letter_query store1 booking.id = some bl := by
    rw [hstore1]
    rw [baseline_query_append store m1 (store.nextId + 1) booking.id (by rw [hm1]; simp [mod_letter_record])]
    exact h3
  have hcall2 := generate_eq_changed db store1 bid d att booking bl c h1 h2 h3' h4 h6
  set m2 := mod_letter_record db store1 booking d bl c with hm2
  refine ⟨m1, m2, ?_, ?_, ?_, ?_, ?_, ?_, ?_, ?_, ?_, ?_, ?_⟩
  · rw [hcall1]
    rfl
  · rw [hcall2]
    simp only [hstore1]
    refine Prod.ext ?_ ?_
    · rfl
    · show Store.mk (store.letters ++ [m1] ++ [m2]) (store.nextId + 1 + 1) = _
      rw [List.append_assoc]
      refine congrArg₂ Store.mk rfl ?_
      omega
  · rw [hm1]; rfl
  · rw [hm2]; rfl
  · rw [hm1]; rfl
  · rw [hm2]; rfl
  · rw [hm1]; rfl
  · rw [hm2, hstore1]; rfl
  · rw [hm1, hm2, hstore1]
    show next_letter_sequence ⟨store.letters ++ [m1], store.nextId + 1⟩
        booking.id "PLACEMENT_MOD" =
      next_letter_sequence store booking.id "PLACEMENT_MOD" + 1
    exact next_after_insert store m1 (store.nextId + 1) booking.id
      "PLACEMENT_MOD" (by rw [hm1]; rfl) (by rw [hm1]; rfl) (by rw [hm1]; rfl)
  · rw [hm1]; rfl
  · rw [hm2]; rfl

/-- C1 counterexample: after one placement-date mutation, two issuance
calls create two amendment rows (ids 100 and 101, sequences 1 and 2)
carrying the same digest — the claim's "exactly one amendment, both calls
return it, digests never repeat" fails on this input. -/
theorem amendment_dedup_counterexample :
    (generate_placement_advice exDb1 exStore0 1 d0 true).1 = .newAmendment 100 ∧
    (generate_placement_advice exDb1
        (generate_placement_advice exDb1 exStore0 1 d0 true).2 1 d0 true).1 =
      .newAmendment 101 ∧
    (letterRows (generate_placement_advice exDb1
        (generate_placement_advice exDb1 exStore0 1 d0 true).2 1 d0 true).2 1
        "PLACEMENT_MOD").map
        (fun L => (L.id, L.sequence_no, L.snapshot_json.bind (fun s => s.content_hash))) =
      [(100, 1, some (hash_canonical_snapshot exCanon1)),
       (101, 2, some (hash_canonical_snapshot exCanon1))] := by
  refine ⟨by decide, by decide, by decide⟩

/-- Witness for C1's amended theorem at the mutated concrete booking. -/
theorem amendment_no_dedup_witness :
    ∃ m1 m2 : BookingLetter,
      generate_placement_advice exDb1 exStore0 1 d0 true =
        (.newAmendment m1.id, ⟨exStore0.letters ++ [m1], exStore0.nextId + 1⟩) ∧
      generate_placement_advice exDb1
          ⟨exStore0.letters ++ [m1], exStore0.nextId + 1⟩ 1 d0 true =
        (.newAmendment m2.id,
         ⟨exStore0.letters ++ [m1, m2], exStore0.nextId + 2⟩) ∧
      m1.letter_type = "PLACEMENT_MOD" ∧ m2.letter_type = "PLACEMENT_MOD" ∧
      m1.booking_id = exB1.id ∧ m2.booking_id = exB1.id ∧
      m1.id = exStore0.nextId ∧ m2.id = exStore0.nextId + 1 ∧
      m2.sequence_no = m1.sequence_no + 1 ∧
      (m1.snapshot_json.bind fun s => s.content_hash) =
        some (hash_canonical_snapshot
          (LettersPy.build_canonical_snapshot_for_placement exDb1 exB1 d0)) ∧
      (m2.snapshot_json.bind fun s => s.content_hash) =
        some (hash_canonical_snapshot
          (LettersPy.build_canonical_snapshot_for_placement exDb1 exB1 d0)) :=
  amendment_no_dedup exDb1 exStore0 1 d0 true exB1 exBaseline exCanon0
    (by decide) (by decide) (by decide) (by decide) (by decide)

/-- C8 counterexample: a baseline whose canonical payload is stored but
whose digest field is null, on a mutated booking — the claim predicts
"serve baseline verbatim, write nothing", but the operation recomputes
the digest, detects the change and inserts an amendment row. -/
theorem integrity_degraded_counterexample :
    (generate_placement_advice exDb1 exStoreNoHash 1 d0 true).1 =
      .newAmendment 100 ∧
    (generate_placement_advice exDb1 exStoreNoHash 1 d0 true).2.letters.length = 2 ∧
    (exBaselineNoHash.snapshot_json.bind fun s => s.content_hash) = none := by
  refine ⟨by decide, by decide, by decide⟩

/-! ### C7: sequence allocator -/

/-- Bounds of membership in `seqList`. -/
theorem mem_seqList (x : Int) (n : Nat) : x ∈ seqList n ↔ 1 ≤ x ∧ x ≤ n := by
  unfold seqList
  simp only [List.mem_map, List.mem_range]
  constructor
  · rintro ⟨i, hi, rfl⟩
    omega
  · rintro ⟨hx1, hxn⟩
    refine ⟨(x - 1).toNat, by omega, by omega⟩

/-- `seqList` grows by appending the next number. -/
theorem seqList_succ (k : Nat) : seqList (k + 1) = seqList k ++ [(k : Int) + 1] := by
  unfold seqList
  rw [List.range_succ, List.map_append]
  rfl

/-- When the stored amendment sequences are exactly `1..k`, the allocator
returns `k + 1`. -/
theorem next_eq_of_modSeqs (store : Store) (bid : Int) (k : Nat)
    (h7 : modSeqs store bid = seqList k) :
    next_letter_sequence store bid "PLACEMENT_MOD" = (k : Int) + 1 := by
  rcases k with _ | k
  · have hrows : letterRows store bid "PLACEMENT_MOD" = [] := by
      have := h7
      unfold modSeqs seqList at this
      simpa using this
    have := (next_letter_sequence_spec store bid "PLACEMENT_MOD").1 hrows
    rw [this]
    norm_num
  · have hne : letterRows store bid "PLACEMENT_MOD" ≠ [] := by
      intro hnil
      unfold modSeqs at h7
      rw [hnil] at h7
      have : seqList (k + 1) ≠ [] := by
        rw [seqList_succ]
        simp
      exact this h7.symm
    rcases (next_letter_sequence_spec store bid "PLACEMENT_MOD").2 hne with
      ⟨m, hm, hnext, hmax⟩
    have hm_seq : m.sequence_no ∈ seqList (k + 1) := by
      rw [← h7]
      exact List.mem_map_of_mem _ hm
    have hub : m.sequence_no ≤ (k : Int) + 1 := ((mem_seqList _ _).mp hm_seq).2
    have htop : ((k : Int) + 1) ∈ modSeqs store bid := by
      rw [h7, mem_seqList]
      omega
    rcases List.mem_map.mp htop with ⟨y, hy, hyeq⟩
    have hlb : (k : Int) + 1 ≤ m.sequence_no := hyeq ▸ hmax y hy
    rw [hnext]
    omega

/-- Appending an amendment row extends `modSeqs` by its sequence. -/
theorem modSeqs_append_mod (store : Store) (L : BookingLetter) (n' : Int)
    (bid : Int) (hbid : L.booking_id = bid) (ht : L.letter_type = "PLACEMENT_MOD") :
    modSeqs ⟨store.letters ++ [L], n'⟩ bid = modSeqs store bid ++ [L.sequence_no] := by
  unfold modSeqs letterRows
  simp [List.filter_append, hbid, ht]

/-- C7: the allocator returns 1 when no row of the class exists for the
booking, and otherwise one plus the maximal existing sequence number;
consequently, when the stored amendment sequences are exactly `1..k`, a
Changed-branch issuance numbers its new amendment `k + 1`, extending the
sequences to exactly `1..k+1` — `N` successive distinct-mutation
issuances yield `1..N` with no gaps or repeats. -/
theorem next_sequence_postcondition
    (db : Db) (store : Store) (bid : Int) (d : Date) (att : Bool)
    (booking : Booking) (bl : BookingLetter) (c : CanonSnapshot) (k : Nat)
    (h1 : db.bookings.find? (fun b => b.id == bid) = some booking)
    (h2 : booking.is_cancelled = false)
    (h3 : baseline_letter_query store booking.id = some bl)
    (h4 : bl.snapshot_json.bind (fun s => s.canonical) = some c)
    (h6 : hash_canonical_snapshot c ≠
      hash_canonical_snapshot
        (LettersPy.build_canonical_snapshot_for_placement db booking d))
    (h7 : modSeqs store booking.id = seqList k) :
    (∀ (store' : Store) (bid' : Int) (t : String),
      (letterRows store' bid' t = [] → next_letter_sequence store' bid' t = 1) ∧
      (letterRows store' bid' t ≠ [] → ∃ m ∈ letterRows store' bid' t,
        next_letter_sequence store' bid' t = m.sequence_no + 1 ∧
        ∀ x ∈ letterRows store' bid' t, x.sequence_no ≤ m.sequence_no)) ∧
    modSeqs (generate_placement_advice db store bid d att).2 booking.id =
      seqList (k + 1) := by
  refine ⟨fun store' bid' t => next_letter_sequence_spec store' bid' t, ?_⟩
  rw [generate_eq_changed db store bid d att booking bl c h1 h2 h3 h4 h6]
  rw [modSeqs_append_mod store _ _ booking.id rfl rfl]
  rw [h7, seqList_succ]
  have : (mod_letter_record db store booking d bl c).sequence_no =
      next_letter_sequence store booking.id "PLACEMENT_MOD" := rfl
  rw [this, next_eq_of_modSeqs store booking.id k h7]

/-- Witness for C7's theorem: the allocator numbers the first amendment 1
on the concrete mutated booking. -/
theorem next_sequence_postcondition_witness :
    modSeqs (generate_placement_advice exDb1 exStore0 1 d0 true).2 exB1.id =
      seqList 1 :=
  (next_sequence_postcondition exDb1 exStore0 1 d0 true exB1 exBaseline
    exCanon0 0 (by decide) (by decide) (by decide) (by decide) (by decide)
    (by decide)).2

/-! ### C9: the duplicated canonicalization -/

/-- `List.any` respects pointwise-equal predicates. -/
theorem list_any_congr {α : Type} (p q : α → Bool) :
    ∀ l : List α, (∀ x ∈ l, p x = q x) → l.any p = l.any q
  | [], _ => rfl
  | a :: t, h => by
    simp only [List.any_cons]
    rw [h a (List.mem_cons_self a t),
      list_any_congr p q t (fun x hx => h x (List.mem_cons_of_mem a hx))]

/-- Membership is preserved by `pySortBy`. -/
theorem mem_pySortBy (le : α → α → Bool) (l : List α) (x : α) :
    x ∈ pySortBy le l ↔ x ∈ l :=
  (pySortBy_perm le l).mem_iff

/-- C9 (amended): the two copies of the canonical builder agree on every
booking whose authority roles and material modes carry no surrounding
whitespace (after uppercasing, stripping is then the identity), and the
digests agree with them; they can differ when a role carries surrounding
whitespace, because only `transport/letters/snapshots.py` strips roles
before comparing and storing them. -/
theorem canonical_builders_agree (db : Db) (booking : Booking) (d : Date)
    (hroles : ∀ ba ∈ booking.booking_authorities,
      pyStrip (pyUpper (orStr ba.role)) = pyUpper (orStr ba.role))
    (hmodes : ∀ mt ∈ booking.material_tables,
      pyStrip (pyUpper (orStr mt.mode)) = pyUpper (orStr mt.mode)) :
    SnapshotsPy.build_canonical_snapshot_for_placement db booking d =
      LettersPy.build_canonical_snapshot_for_placement db booking d ∧
    hash_canonical_snapshot
        (SnapshotsPy.build_canonical_snapshot_for_placement db booking d) =
      hash_canonical_snapshot
        (LettersPy.build_canonical_snapshot_for_placement db booking d) := by
  have hfL : booking.booking_authorities.filter
      (fun ba => pyStrip (pyUpper (orStr ba.role)) == "LOADING") =
      booking.booking_authorities.filter
      (fun ba => pyUpper (orStr ba.role) == "LOADING") :=
    List.filter_congr (fun ba hba => by rw [hroles ba hba])
  have hfU : booking.booking_authorities.filter
      (fun ba => pyStrip (pyUpper (orStr ba.role)) == "UNLOADING") =
      booking.booking_authorities.filter
      (fun ba => pyUpper (orStr ba.role) == "UNLOADING") :=
    List.filter_congr (fun ba hba => by rw [hroles ba hba])
  have hcanon : ∀ ba ∈ booking.booking_authorities,
      SnapshotsPy._canon_authority ba = LettersPy._canon_authority ba := by
    intro ba hba
    unfold SnapshotsPy._canon_authority LettersPy._canon_authority
    cases ba.authority with
    | none => rfl
    | some auth => rw [hroles ba hba]
  have hmapLoad :
      (pySortBy (fun a b => decide (orInt a.sequence_index ≤ orInt b.sequence_index))
        (booking.booking_authorities.filter
          (fun ba => pyUpper (orStr ba.role) == "LOADING"))).map
            SnapshotsPy._canon_authority =
      (pySortBy (fun a b => decide (orInt a.sequence_index ≤ orInt b.sequence_index))
        (booking.booking_authorities.filter
          (fun ba => pyUpper (orStr ba.role) == "LOADING"))).map
            LettersPy._canon_authority :=
    List.map_congr_left (fun ba hba =>
      hcanon ba (List.mem_of_mem_filter ((mem_pySortBy _ _ ba).mp hba)))
  have hmapUnload :
      (pySortBy (fun a b => decide (orInt a.sequence_index ≤ orInt b.sequence_index))
        (booking.booking_authorities.filter
          (fun ba => pyUpper (orStr ba.role) == "UNLOADING"))).map
            SnapshotsPy._canon_authority =
      (pySortBy (fun a b => decide (orInt a.sequence_index ≤ orInt b.sequence_index))
        (booking.booking_authorities.filter
          (fun ba => pyUpper (orStr ba.role) == "UNLOADING"))).map
            LettersPy._canon_authority :=
    List.map_congr_left (fun ba hba =>
      hcanon ba (List.mem_of_mem_filter ((mem_pySortBy _ _ ba).mp hba)))
  have hreq : SnapshotsPy.booking_requires_attachment_pdf booking =
      LettersPy.booking_requires_attachment_pdf booking := by
    unfold SnapshotsPy.booking_requires_attachment_pdf
      LettersPy.booking_requires_attachment_pdf
    exact list_any_congr _ _ _ (fun mt hmt => by rw [hmodes mt hmt])
  have hmain : SnapshotsPy.build_canonical_snapshot_for_placement db booking d =
      LettersPy.build_canonical_snapshot_for_placement db booking d := by
    unfold SnapshotsPy.build_canonical_snapshot_for_placement
      LettersPy.build_canonical_snapshot_for_placement
    simp only [hfL, hfU, hmapLoad, hmapUnload, hreq]
  exact ⟨hmain, congrArg hash_canonical_snapshot hmain⟩

/-- C9 counterexample: with a loading authority whose role is
`"LOADING "` (trailing space), the snapshots-module builder keeps the
authority in the loading list while the letters-module builder's
unstripped filter drops it — the payloads differ. -/
theorem canonicalization_divergence_counterexample :
    SnapshotsPy.build_canonical_snapshot_for_placement exDb9 exB9 d0 ≠
      LettersPy.build_canonical_snapshot_for_placement exDb9 exB9 d0 := by
  decide

/-- Witness for C9's amended theorem: with the trimmed role `"LOADING"`
the two builders agree. -/
theorem canonical_builders_agree_witness :
    SnapshotsPy.build_canonical_snapshot_for_placement exDb9t exB9t d0 =
      LettersPy.build_canonical_snapshot_for_placement exDb9t exB9t d0 ∧
    hash_canonical_snapshot
        (SnapshotsPy.build_canonical_snapshot_for_placement exDb9t exB9t d0) =
      hash_canonical_snapshot
        (LettersPy.build_canonical_snapshot_for_placement exDb9t exB9t d0) :=
  canonical_builders_agree exDb9t exB9t d0 (by decide) (by decide)

/-! ### C10: the trip serial -/

/-- The serial loop returns 1 when the booking id is absent. -/
theorem tripSerialLoop_of_notmem (bid : Int) :
    ∀ (l : List Booking) (k : Int), bid ∉ l.map (fun s => s.id) →
      tripSerialLoop bid k l = 1
  | [], _, _ => rfl
  | s :: rest, k, h => by
    have hs : s.id ≠ bid := by
      intro heq
      exact h (by simp [heq])
    unfold tripSerialLoop
    rw [if_neg hs]
    exact tripSerialLoop_of_notmem bid rest (k + 1) (fun hm => h (by simp [hm]))

/-- On an id-sorted duplicate-free list containing the booking id, the
serial loop returns the offset plus the number of smaller-id entries. -/
theorem tripSerialLoop_sorted (bid : Int) :
    ∀ (l : List Booking) (k : Int),
      l.Pairwise (fun a b => a.id ≤ b.id) →
      (l.map (fun s => s.id)).Nodup →
      bid ∈ l.map (fun s => s.id) →
      tripSerialLoop bid k l =
        k + ((l.filter (fun s => decide (s.id < bid))).length : Int)
  | [], k, _, _, hmem => absurd hmem (by simp)
  | s :: rest, k, hpw, hnd, hmem => by
    rcases List.pairwise_cons.mp hpw with ⟨hs, hrest⟩
    rw [List.map_cons, List.nodup_cons] at hnd
    rcases hnd with ⟨hnds, hndrest⟩
    unfold tripSerialLoop
    by_cases heq : s.id = bid
    · rw [if_pos heq]
      have hnone : ∀ x ∈ s :: rest, ¬(decide (x.id < bid) = true) := by
        intro x hx
        rcases List.mem_cons.mp hx with rfl | hx'
        · simp [heq]
        · have := hs x hx'
          simp only [decide_eq_true_eq]
          omega
      have : (s :: rest).filter (fun s => decide (s.id < bid)) = [] :=
        List.filter_eq_nil_iff.mpr hnone
      rw [this]
      simp
    · rw [if_neg heq]
      have hmem' : bid ∈ rest.map (fun s => s.id) := by
        rcases List.mem_map.mp hmem with ⟨y, hy, hyid⟩
        rcases List.mem_cons.mp hy with rfl | hy'
        · exact absurd hyid heq
        · exact hyid ▸ List.mem_map_of_mem _ hy'
      have hlt : s.id < bid := by
        rcases List.mem_map.mp hmem' with ⟨y, hy, hyid⟩
        have := hs y hy
        omega
      rw [List.filter_cons_of_pos (by simpa using hlt)]
      rw [tripSerialLoop_sorted bid rest (k + 1) hrest hndrest hmem']
      simp only [List.length_cons]
      push_cast
      ring

/-- C10: `compute_trip_serial` returns one plus the number of same-
agreement bookings with a smaller id when the booking is present (its
1-based position in the id-ascending sibling list), 1 when absent; the
serial sits in the canonical payload and survives the `letter_date`
strip, so it is hashed; removing a lower-id sibling of the concrete
booking changes its digest. -/
theorem trip_serial_in_hashed_identity (db : Db) (booking : Booking)
    (hnd : ((db.bookings.filter
      (fun s => s.agreement_id == booking.agreement_id)).map
        (fun s => s.id)).Nodup) :
    (booking.id ∈ (db.bookings.filter
        (fun s => s.agreement_id == booking.agreement_id)).map (fun s => s.id) →
      compute_trip_serial db booking =
        1 + (((db.bookings.filter
          (fun s => s.agreement_id == booking.agreement_id)).filter
            (fun s => decide (s.id < booking.id))).length : Int)) ∧
    (booking.id ∉ (db.bookings.filter
        (fun s => s.agreement_id == booking.agreement_id)).map (fun s => s.id) →
      compute_trip_serial db booking = 1) ∧
    (∀ d : Date,
      (SnapshotsPy.build_canonical_snapshot_for_placement db booking d).trip_serial =
        compute_trip_serial db booking ∧
      ("trip_serial", Json.int (compute_trip_serial db booking)) ∈
        (canonFields
          (SnapshotsPy.build_canonical_snapshot_for_placement db booking d)).filter
          (fun kv => kv.1 != "letter_date")) ∧
    (hash_canonical_snapshot
        (SnapshotsPy.build_canonical_snapshot_for_placement exDb10 exB10b d0) ≠
      hash_canonical_snapshot
        (SnapshotsPy.build_canonical_snapshot_for_placement exDb10r exB10b d0) ∧
     compute_trip_serial exDb10 exB10b = 2 ∧
     compute_trip_serial exDb10r exB10b = 1) := by
  have hperm := pySortBy_perm (fun a b => decide (a.id ≤ b.id))
    (db.bookings.filter (fun s => s.agreement_id == booking.agreement_id))
  refine ⟨?_, ?_, ?_, by refine ⟨by decide, by decide, by decide⟩⟩
  · intro hmem
    unfold compute_trip_serial
    rw [tripSerialLoop_sorted booking.id _ 1
      (pySortBy_pairwise (R := fun a b : Booking => a.id ≤ b.id)
        (fun x y hxy => le_of_not_le hxy)
        (fun x y z hxy hyz => le_trans hxy hyz) _)
      (((hperm.map (fun s => s.id)).nodup_iff).mpr hnd)
      (((hperm.map (fun s => s.id)).mem_iff).mpr (by simpa using hmem))]
    rw [(hperm.filter (fun s => decide (s.id < booking.id))).length_eq]
  · intro hmem
    unfold compute_trip_serial
    exact tripSerialLoop_of_notmem booking.id _ 1
      (fun h => hmem (((hperm.map (fun s => s.id)).mem_iff).mp h))
  · intro d
    refine ⟨rfl, ?_⟩
    refine List.mem_filter.mpr ⟨?_, rfl⟩
    unfold canonFields
    exact List.mem_cons_of_mem _ (List.mem_cons_of_mem _ (List.mem_cons_self _ _))

/-- Witness for C10's theorem at the two-sibling concrete database. -/
theorem trip_serial_in_hashed_identity_witness :
    hash_canonical_snapshot
        (SnapshotsPy.build_canonical_snapshot_for_placement exDb10 exB10b d0) ≠
      hash_canonical_snapshot
        (SnapshotsPy.build_canonical_snapshot_for_placement exDb10r exB10b d0) ∧
    compute_trip_serial exDb10 exB10b = 2 ∧
    compute_trip_serial exDb10r exB10b = 1 :=
  (trip_serial_in_hashed_identity exDb10 exB10b (by decide)).2.2.2
